import Mathlib

/-!
Shallow embedding of `egui-scale` (`src/lib.rs`): the `EguiScale` trait and
its implementations for `f32`, `u8`, `i8`, `Vec2`, `CornerRadius`, `Margin`,
`[T]`, `Shadow`, `Stroke`, `WidgetVisuals`, `Interaction`, `Widgets`,
`TextCursorStyle`, `Visuals`, `ScrollStyle`, `Spacing`, `FontId`, `Style`,
`Option<T>` and `Frame`.

Modelling conventions:
* Finite `f32` values are modelled as exact rationals; the IEEE special
  values NaN and the two infinities are separate constructors of `F32`.
  Finite multiplication is exact rational multiplication (every concrete
  product appearing in the development is exactly representable in `f32`,
  so the model and the machine agree on them).
* `u8` / `i8` are integers confined to their ranges by a subtype; Rust's
  saturating float-to-int `as` cast is `asU8` / `asI8` (NaN goes to 0,
  out-of-range values clamp, in-range values truncate toward zero).
* `&mut self` methods become functions returning the updated value.
-/

/-- Model of an `f32` value: an exact rational for the finite values, plus
the special values NaN, `+∞` and `-∞`. -/
inductive F32 : Type where
  | fin (val : ℚ)
  | nan
  | pinf
  | ninf
deriving DecidableEq, Repr

/-- IEEE-style multiplication on the `F32` model: NaN is absorbing, a
nonzero finite value times an infinity is a signed infinity, zero times an
infinity is NaN, and finite times finite is exact rational multiplication. -/
def F32.mul : F32 → F32 → F32
  | .nan, _ => .nan
  | _, .nan => .nan
  | .fin a, .fin b => .fin (a * b)
  | .fin a, .pinf => if 0 < a then .pinf else if a < 0 then .ninf else .nan
  | .fin a, .ninf => if 0 < a then .ninf else if a < 0 then .pinf else .nan
  | .pinf, .fin b => if 0 < b then .pinf else if b < 0 then .ninf else .nan
  | .ninf, .fin b => if 0 < b then .ninf else if b < 0 then .pinf else .nan
  | .pinf, .pinf => .pinf
  | .pinf, .ninf => .ninf
  | .ninf, .pinf => .ninf
  | .ninf, .ninf => .pinf

/-- IEEE-style `<` on the `F32` model: any comparison with NaN is false. -/
def F32.lt : F32 → F32 → Bool
  | .nan, _ => false
  | _, .nan => false
  | .fin a, .fin b => decide (a < b)
  | .fin _, .pinf => true
  | .fin _, .ninf => false
  | .pinf, _ => false
  | .ninf, .fin _ => true
  | .ninf, .pinf => true
  | .ninf, .ninf => false

/-- `impl EguiScale for f32`: `*self *= scale`. -/
def F32.scale (v : F32) (factor : F32) : F32 :=
  F32.mul v factor

/-- Truncation toward zero of a rational, as Rust's float-to-int cast
truncates: floor for nonnegative values, ceiling for negative ones. -/
def truncQ (q : ℚ) : ℤ :=
  if 0 ≤ q then ⌊q⌋ else ⌈q⌉

/-- The `u8` type: an integer in `[0, 255]`. -/
def U8 : Type := { n : ℤ // 0 ≤ n ∧ n ≤ 255 }

instance : DecidableEq U8 := fun a b =>
  decidable_of_iff (a.val = b.val) Subtype.ext_iff.symm

/-- The `i8` type: an integer in `[-128, 127]`. -/
def I8 : Type := { n : ℤ // -128 ≤ n ∧ n ≤ 127 }

instance : DecidableEq I8 := fun a b =>
  decidable_of_iff (a.val = b.val) Subtype.ext_iff.symm

/-- Rust's saturating `as u8` cast out of the `F32` model: NaN becomes 0,
finite values truncate toward zero and clamp into `[0, 255]`, infinities
saturate. -/
def asU8 (x : F32) : ℤ :=
  match x with
  | .fin q => max 0 (min 255 (truncQ q))
  | .nan => 0
  | .pinf => 255
  | .ninf => 0

/-- Rust's saturating `as i8` cast out of the `F32` model. -/
def asI8 (x : F32) : ℤ :=
  match x with
  | .fin q => max (-128) (min 127 (truncQ q))
  | .nan => 0
  | .pinf => 127
  | .ninf => -128

/-- `impl EguiScale for u8`: `*self = (f32::from(*self) * scale) as u8`. -/
def U8.scale (v : U8) (factor : F32) : U8 :=
  ⟨asU8 (F32.mul (F32.fin (v.val : ℚ)) factor), by
    rcases F32.mul (F32.fin (v.val : ℚ)) factor with q | _ | _ | _ <;>
      simp [asU8]⟩

/-- `impl EguiScale for i8`: `*self = (f32::from(*self) * scale) as i8`. -/
def I8.scale (v : I8) (factor : F32) : I8 :=
  ⟨asI8 (F32.mul (F32.fin (v.val : ℚ)) factor), by
    rcases F32.mul (F32.fin (v.val : ℚ)) factor with q | _ | _ | _ <;>
      simp [asI8]⟩

/-- `egui::Color32`: four 8-bit channels, an opaque color value for this
crate — the crate never scales colors as geometry. -/
structure Color32 : Type where
  r : U8
  g : U8
  b : U8
  a : U8
deriving DecidableEq

/-- `egui::Vec2`: two `f32` components. -/
structure Vec2 : Type where
  x : F32
  y : F32
deriving DecidableEq

/-- `impl EguiScale for Vec2`: `*self *= scale` multiplies both components. -/
def Vec2.scale (v : Vec2) (factor : F32) : Vec2 :=
  { x := F32.mul v.x factor, y := F32.mul v.y factor }

/-- `egui::CornerRadius`: four `u8` corner radii. -/
structure CornerRadius : Type where
  nw : U8
  ne : U8
  se : U8
  sw : U8
deriving DecidableEq

/-- `impl EguiScale for CornerRadius`: scales each corner via the `u8` rule. -/
def CornerRadius.scale (c : CornerRadius) (factor : F32) : CornerRadius :=
  { nw := c.nw.scale factor
    ne := c.ne.scale factor
    se := c.se.scale factor
    sw := c.sw.scale factor }

/-- `egui::Margin`: four `i8` sides. -/
structure Margin : Type where
  left : I8
  right : I8
  top : I8
  bottom : I8
deriving DecidableEq

/-- `impl EguiScale for Margin`: scales each side via the `i8` rule. -/
def Margin.scale (m : Margin) (factor : F32) : Margin :=
  { left := m.left.scale factor
    right := m.right.scale factor
    top := m.top.scale factor
    bottom := m.bottom.scale factor }

/-- `impl<T: EguiScale> EguiScale for [T]`: scales every element in place,
in order. -/
def scaleList {α : Type} (scaleFn : α → F32 → α) (xs : List α) (factor : F32) :
    List α :=
  xs.map (fun v => scaleFn v factor)

/-- `epaint::Shadow`: offset is an `[i8; 2]` (scaled through the slice
impl), blur and spread are `u8`, and the color is left untouched by the
`Shadow` impl. -/
structure Shadow : Type where
  offset : List I8
  blur : U8
  spread : U8
  color : Color32
deriving DecidableEq

/-- `impl EguiScale for Shadow`: scales `offset`, `blur` and `spread`;
`color` is not a linear dimension and is not touched. -/
def Shadow.scale (s : Shadow) (factor : F32) : Shadow :=
  { s with
    offset := scaleList I8.scale s.offset factor
    blur := s.blur.scale factor
    spread := s.spread.scale factor }

/-- `egui::Stroke`: an `f32` width and a color. -/
structure Stroke : Type where
  width : F32
  color : Color32
deriving DecidableEq

/-- `impl EguiScale for Stroke`:

```rust
self.width *= scale;
if self.width < 1.0 {
    self.color.gamma_multiply(self.width);
    self.width = 1.0;
}
```

`Color32::gamma_multiply` has signature `fn gamma_multiply(self, factor:
f32) -> Color32`: it takes the (`Copy`) color by value and returns a new
color. Called in statement position its result is discarded, so the
statement has no effect and `self.color` is unchanged on both branches;
the embedding therefore keeps `color` as-is in the sub-unit branch. -/
def Stroke.scale (s : Stroke) (factor : F32) : Stroke :=
  if F32.lt (F32.mul s.width factor) (F32.fin 1) then
    { width := F32.fin 1, color := s.color }
  else
    { width := F32.mul s.width factor, color := s.color }

/-- `egui::style::WidgetVisuals`: the scaled fields (`bg_stroke`,
`corner_radius`, `fg_stroke`, `expansion`) plus the untouched `bg_fill`
color. -/
structure WidgetVisuals : Type where
  bg_fill : Color32
  bg_stroke : Stroke
  corner_radius : CornerRadius
  fg_stroke : Stroke
  expansion : F32
deriving DecidableEq

/-- `impl EguiScale for WidgetVisuals`. -/
def WidgetVisuals.scale (w : WidgetVisuals) (factor : F32) : WidgetVisuals :=
  { w with
    bg_stroke := w.bg_stroke.scale factor
    corner_radius := w.corner_radius.scale factor
    fg_stroke := w.fg_stroke.scale factor
    expansion := F32.mul w.expansion factor }

/-- `egui::style::Interaction`: only the two resize-grab radii are scaled. -/
structure Interaction : Type where
  resize_grab_radius_corner : F32
  resize_grab_radius_side : F32
deriving DecidableEq

/-- `impl EguiScale for Interaction`. -/
def Interaction.scale (i : Interaction) (factor : F32) : Interaction :=
  { resize_grab_radius_corner := F32.mul i.resize_grab_radius_corner factor
    resize_grab_radius_side := F32.mul i.resize_grab_radius_side factor }

/-- `egui::style::Widgets`: the five interaction-state variants. -/
structure Widgets : Type where
  noninteractive : WidgetVisuals
  inactive : WidgetVisuals
  hovered : WidgetVisuals
  active : WidgetVisuals
  open_ : WidgetVisuals
deriving DecidableEq

/-- `impl EguiScale for Widgets`: scales all five states. -/
def Widgets.scale (w : Widgets) (factor : F32) : Widgets :=
  { noninteractive := w.noninteractive.scale factor
    inactive := w.inactive.scale factor
    hovered := w.hovered.scale factor
    active := w.active.scale factor
    open_ := w.open_.scale factor }

/-- `egui::style::TextCursorStyle`: only its `stroke` is scaled. -/
structure TextCursorStyle : Type where
  stroke : Stroke
deriving DecidableEq

/-- `impl EguiScale for TextCursorStyle`. -/
def TextCursorStyle.scale (t : TextCursorStyle) (factor : F32) :
    TextCursorStyle :=
  { stroke := t.stroke.scale factor }

/-- `egui::style::Selection`: the `Visuals` impl scales only its `stroke`,
leaving `bg_fill` untouched. -/
structure Selection : Type where
  bg_fill : Color32
  stroke : Stroke
deriving DecidableEq

/-- `egui::Visuals`: the ten fields the `Visuals` impl scales. -/
structure Visuals : Type where
  clip_rect_margin : F32
  menu_corner_radius : CornerRadius
  popup_shadow : Shadow
  resize_corner_size : F32
  selection : Selection
  text_cursor : TextCursorStyle
  widgets : Widgets
  window_corner_radius : CornerRadius
  window_shadow : Shadow
  window_stroke : Stroke
deriving DecidableEq

/-- `impl EguiScale for Visuals`: note `self.selection.stroke.scale(scale)`
reaches inside `selection`, leaving `selection.bg_fill` untouched. -/
def Visuals.scale (v : Visuals) (factor : F32) : Visuals :=
  { clip_rect_margin := F32.mul v.clip_rect_margin factor
    menu_corner_radius := v.menu_corner_radius.scale factor
    popup_shadow := v.popup_shadow.scale factor
    resize_corner_size := F32.mul v.resize_corner_size factor
    selection := { v.selection with stroke := v.selection.stroke.scale factor }
    text_cursor := v.text_cursor.scale factor
    widgets := v.widgets.scale factor
    window_corner_radius := v.window_corner_radius.scale factor
    window_shadow := v.window_shadow.scale factor
    window_stroke := v.window_stroke.scale factor }

/-- `egui::style::ScrollStyle`: the six scaled `f32` fields. -/
structure ScrollStyle : Type where
  bar_inner_margin : F32
  bar_outer_margin : F32
  bar_width : F32
  floating_allocated_width : F32
  floating_width : F32
  handle_min_length : F32
deriving DecidableEq

/-- `impl EguiScale for ScrollStyle`. -/
def ScrollStyle.scale (s : ScrollStyle) (factor : F32) : ScrollStyle :=
  { bar_inner_margin := F32.mul s.bar_inner_margin factor
    bar_outer_margin := F32.mul s.bar_outer_margin factor
    bar_width := F32.mul s.bar_width factor
    floating_allocated_width := F32.mul s.floating_allocated_width factor
    floating_width := F32.mul s.floating_width factor
    handle_min_length := F32.mul s.handle_min_length factor }

/-- `egui::style::Spacing`: the fifteen scaled fields. -/
structure Spacing : Type where
  button_padding : Vec2
  combo_height : F32
  combo_width : F32
  icon_spacing : F32
  icon_width : F32
  icon_width_inner : F32
  indent : F32
  interact_size : Vec2
  item_spacing : Vec2
  menu_margin : Margin
  scroll : ScrollStyle
  slider_width : F32
  text_edit_width : F32
  tooltip_width : F32
  window_margin : Margin
deriving DecidableEq

/-- `impl EguiScale for Spacing`. -/
def Spacing.scale (s : Spacing) (factor : F32) : Spacing :=
  { button_padding := s.button_padding.scale factor
    combo_height := F32.mul s.combo_height factor
    combo_width := F32.mul s.combo_width factor
    icon_spacing := F32.mul s.icon_spacing factor
    icon_width := F32.mul s.icon_width factor
    icon_width_inner := F32.mul s.icon_width_inner factor
    indent := F32.mul s.indent factor
    interact_size := s.interact_size.scale factor
    item_spacing := s.item_spacing.scale factor
    menu_margin := s.menu_margin.scale factor
    scroll := s.scroll.scale factor
    slider_width := F32.mul s.slider_width factor
    text_edit_width := F32.mul s.text_edit_width factor
    tooltip_width := F32.mul s.tooltip_width factor
    window_margin := s.window_margin.scale factor }

/-- `egui::FontFamily`: an opaque, non-scalable font identifier. -/
inductive FontFamily : Type where
  | Proportional
  | Monospace
  | Name (name : String)
deriving DecidableEq

/-- `egui::FontId`: a scalable `size` and a non-scalable `family`. -/
structure FontId : Type where
  size : F32
  family : FontFamily
deriving DecidableEq

/-- `impl EguiScale for FontId`: `self.size.scale(scale)`; `family` is
untouched. -/
def FontId.scale (f : FontId) (factor : F32) : FontId :=
  { f with size := F32.mul f.size factor }

/-- `egui::TextStyle`: the key type of the text-style→`FontId` mapping. -/
inductive TextStyle : Type where
  | Small
  | Body
  | Monospace
  | Button
  | Heading
  | Name (name : String)
deriving DecidableEq

/-- `egui::Style`: the theme root. The scaled fields are
`override_font_id`, `text_styles`, `interaction`, `spacing` and `visuals`;
`animation_time` stands for `Style`'s non-scalable fields, which the impl
never touches. The `BTreeMap<TextStyle, FontId>` is modelled as an
association list. -/
structure Style : Type where
  override_font_id : Option FontId
  text_styles : List (TextStyle × FontId)
  interaction : Interaction
  spacing : Spacing
  visuals : Visuals
  animation_time : F32
deriving DecidableEq

/-- `impl EguiScale for Style`:

```rust
if let Some(font_id) = &mut self.override_font_id { font_id.scale(scale); }
for font_id in self.text_styles.values_mut() { font_id.scale(scale); }
self.interaction.scale(scale);
self.spacing.scale(scale);
self.visuals.scale(scale);
```
-/
def Style.scale (st : Style) (factor : F32) : Style :=
  { st with
    override_font_id :=
      match st.override_font_id with
      | none => none
      | some font_id => some (font_id.scale factor)
    text_styles := st.text_styles.map (fun kv => (kv.1, kv.2.scale factor))
    interaction := st.interaction.scale factor
    spacing := st.spacing.scale factor
    visuals := st.visuals.scale factor }

/-- `impl<T: EguiScale> EguiScale for Option<T>`: no-op when `None`,
delegates to `T`'s rule when `Some`. The element capability is passed
explicitly. -/
def Option.scale {α : Type} (scaleFn : α → F32 → α) :
    Option α → F32 → Option α
  | none, _ => none
  | some v, factor => some (scaleFn v factor)

/-- `egui::Frame`: the five fields the `Frame` impl scales. -/
structure Frame : Type where
  inner_margin : Margin
  outer_margin : Margin
  corner_radius : CornerRadius
  shadow : Shadow
  stroke : Stroke
deriving DecidableEq

/-- `impl EguiScale for Frame`. -/
def Frame.scale (f : Frame) (factor : F32) : Frame :=
  { inner_margin := f.inner_margin.scale factor
    outer_margin := f.outer_margin.scale factor
    corner_radius := f.corner_radius.scale factor
    shadow := f.shadow.scale factor
    stroke := f.stroke.scale factor }

/-- The generic `scaled` convenience of the `EguiScale` trait, at `Style`:
consume, scale, return. -/
def Style.scaled (st : Style) (factor : F32) : Style :=
  st.scale factor

/-- Width-floor predicate for a stroke: the stroke's width is not below
one display unit, so scaling it by factor `1.0` does not engage the floor
branch. -/
def Stroke.noFloor (s : Stroke) : Bool :=
  !(F32.lt s.width (F32.fin 1))

/-- Both strokes of a `WidgetVisuals` are at or above the one-unit width
floor. -/
def WidgetVisuals.noFloor (w : WidgetVisuals) : Bool :=
  w.bg_stroke.noFloor && w.fg_stroke.noFloor

/-- All strokes of all five widget states are at or above the floor. -/
def Widgets.noFloor (w : Widgets) : Bool :=
  w.noninteractive.noFloor && w.inactive.noFloor && w.hovered.noFloor &&
    w.active.noFloor && w.open_.noFloor

/-- All strokes reachable from a `Visuals` are at or above the floor. -/
def Visuals.noFloor (v : Visuals) : Bool :=
  v.selection.stroke.noFloor && v.text_cursor.stroke.noFloor &&
    v.widgets.noFloor && v.window_stroke.noFloor

/-- All strokes reachable from a `Style` are at or above the floor. -/
def Style.noFloor (st : Style) : Bool :=
  st.visuals.noFloor

/-- An opaque white color, used as a concrete test color. -/
def white : Color32 :=
  ⟨⟨255, by norm_num⟩, ⟨255, by norm_num⟩, ⟨255, by norm_num⟩,
    ⟨255, by norm_num⟩⟩

/-- A concrete stroke of width `1.0`. -/
def exStroke : Stroke :=
  ⟨F32.fin 1, white⟩

/-- A concrete corner radius. -/
def exCorner : CornerRadius :=
  ⟨⟨2, by norm_num⟩, ⟨2, by norm_num⟩, ⟨2, by norm_num⟩, ⟨2, by norm_num⟩⟩

/-- A concrete margin. -/
def exMargin : Margin :=
  ⟨⟨6, by norm_num⟩, ⟨6, by norm_num⟩, ⟨3, by norm_num⟩, ⟨3, by norm_num⟩⟩

/-- A concrete shadow. -/
def exShadow : Shadow :=
  ⟨[⟨1, by norm_num⟩, ⟨2, by norm_num⟩], ⟨4, by norm_num⟩, ⟨0, by norm_num⟩,
    white⟩

/-- A concrete per-state widget visual. -/
def exWidgetVisuals : WidgetVisuals :=
  ⟨white, exStroke, exCorner, exStroke, F32.fin 0⟩

/-- A concrete five-state widget visual set. -/
def exWidgets : Widgets :=
  ⟨exWidgetVisuals, exWidgetVisuals, exWidgetVisuals, exWidgetVisuals,
    exWidgetVisuals⟩

/-- A concrete `Visuals` value. -/
def exVisuals : Visuals :=
  ⟨F32.fin 3, exCorner, exShadow, F32.fin 12, ⟨white, exStroke⟩, ⟨exStroke⟩,
    exWidgets, exCorner, exShadow, exStroke⟩

/-- A concrete `ScrollStyle` value. -/
def exScroll : ScrollStyle :=
  ⟨F32.fin 4, F32.fin 0, F32.fin 6, F32.fin 18, F32.fin 2, F32.fin 12⟩

/-- A concrete `Spacing` value. -/
def exSpacing : Spacing :=
  ⟨⟨F32.fin 4, F32.fin 1⟩, F32.fin 200, F32.fin 100, F32.fin 4, F32.fin 14,
    F32.fin 8, F32.fin 18, ⟨F32.fin 40, F32.fin 18⟩, ⟨F32.fin 8, F32.fin 3⟩,
    exMargin, exScroll, F32.fin 100, F32.fin 280, F32.fin 600, exMargin⟩

/-- A concrete `Style`: no font override, the two-entry text-style mapping
of the spec's mapping example (`Body ↦ 14.0`, `Heading ↦ 20.0`), and
stroke widths all at the floor-free value `1.0`. -/
def exampleStyle : Style :=
  ⟨none,
    [(TextStyle.Body, ⟨F32.fin 14, FontFamily.Proportional⟩),
      (TextStyle.Heading, ⟨F32.fin 20, FontFamily.Proportional⟩)],
    ⟨F32.fin 10, F32.fin 5⟩, exSpacing, exVisuals, F32.fin (1 / 12)⟩

/-- A concrete `u8` value `100`. -/
def u8hundred : U8 :=
  ⟨100, by norm_num⟩

/-- A concrete `u8` value `255`. -/
def u8max : U8 :=
  ⟨255, by norm_num⟩

/-- A concrete `u8` value `10`. -/
def u8ten : U8 :=
  ⟨10, by norm_num⟩

/-- A concrete `u8` value `200`. -/
def u8twohundred : U8 :=
  ⟨200, by norm_num⟩

theorem F32.mul_fin_one (x : F32) : F32.mul x (F32.fin 1) = x := by
  cases x <;> simp [F32.mul]

theorem truncQ_intCast (n : ℤ) : truncQ (n : ℚ) = n := by
  unfold truncQ
  split <;> simp

theorem u8_scale_fin_one (v : U8) : U8.scale v (F32.fin 1) = v := by
  rcases v with ⟨n, h1, h2⟩
  apply Subtype.ext
  simp [U8.scale, F32.mul, asU8, truncQ_intCast]
  omega

theorem i8_scale_fin_one (v : I8) : I8.scale v (F32.fin 1) = v := by
  rcases v with ⟨n, h1, h2⟩
  apply Subtype.ext
  simp [I8.scale, F32.mul, asI8, truncQ_intCast]
  omega

theorem vec2_scale_fin_one (v : Vec2) : v.scale (F32.fin 1) = v := by
  rcases v with ⟨x, y⟩
  simp [Vec2.scale, F32.mul_fin_one]

theorem cornerRadius_scale_fin_one (c : CornerRadius) : c.scale (F32.fin 1) = c := by
  rcases c with ⟨a, b, d, e⟩
  simp [CornerRadius.scale, u8_scale_fin_one]

theorem margin_scale_fin_one (m : Margin) : m.scale (F32.fin 1) = m := by
  rcases m with ⟨a, b, c, d⟩
  simp [Margin.scale, i8_scale_fin_one]

theorem scaleList_I8_one (xs : List I8) : scaleList I8.scale xs (F32.fin 1) = xs := by
  simp [scaleList, i8_scale_fin_one]

theorem shadow_scale_fin_one (s : Shadow) : s.scale (F32.fin 1) = s := by
  rcases s with ⟨o, b, sp, c⟩
  simp [Shadow.scale, scaleList_I8_one, u8_scale_fin_one]

theorem stroke_scale_fin_one (s : Stroke) (h : s.noFloor = true) :
    s.scale (F32.fin 1) = s := by
  rcases s with ⟨w, c⟩
  simp [Stroke.noFloor] at h
  simp [Stroke.scale, F32.mul_fin_one, h]

theorem widgetVisuals_scale_fin_one (w : WidgetVisuals) (h : w.noFloor = true) :
    w.scale (F32.fin 1) = w := by
  rcases w with ⟨bf, bs, cr, fs, ex⟩
  simp [WidgetVisuals.noFloor] at h
  simp [WidgetVisuals.scale, stroke_scale_fin_one _ h.1, stroke_scale_fin_one _ h.2,
    cornerRadius_scale_fin_one, F32.mul_fin_one]

theorem widgets_scale_fin_one (w : Widgets) (h : w.noFloor = true) :
    w.scale (F32.fin 1) = w := by
  rcases w with ⟨a, b, c, d, e⟩
  simp only [Widgets.noFloor, Bool.and_eq_true] at h
  obtain ⟨⟨⟨⟨h1, h2⟩, h3⟩, h4⟩, h5⟩ := h
  simp [Widgets.scale, widgetVisuals_scale_fin_one _ h1,
    widgetVisuals_scale_fin_one _ h2, widgetVisuals_scale_fin_one _ h3,
    widgetVisuals_scale_fin_one _ h4, widgetVisuals_scale_fin_one _ h5]

theorem visuals_scale_fin_one (v : Visuals) (h : v.noFloor = true) :
    v.scale (F32.fin 1) = v := by
  rcases v with ⟨crm, mcr, ps, rcs, sel, tc, wg, wcr, ws, wstk⟩
  simp only [Visuals.noFloor, Bool.and_eq_true] at h
  obtain ⟨⟨⟨h1, h2⟩, h3⟩, h4⟩ := h
  rcases sel with ⟨sbf, sstk⟩
  rcases tc with ⟨tstk⟩
  simp [Visuals.scale, TextCursorStyle.scale, F32.mul_fin_one,
    cornerRadius_scale_fin_one, shadow_scale_fin_one, stroke_scale_fin_one _ h1,
    stroke_scale_fin_one _ h2, stroke_scale_fin_one _ h4, widgets_scale_fin_one _ h3]

theorem interaction_scale_fin_one (i : Interaction) : i.scale (F32.fin 1) = i := by
  rcases i with ⟨a, b⟩
  simp [Interaction.scale, F32.mul_fin_one]

theorem scrollStyle_scale_fin_one (s : ScrollStyle) : s.scale (F32.fin 1) = s := by
  rcases s with ⟨a, b, c, d, e, f⟩
  simp [ScrollStyle.scale, F32.mul_fin_one]

theorem spacing_scale_fin_one (s : Spacing) : s.scale (F32.fin 1) = s := by
  rcases s with ⟨a, b, c, d, e, f, g, h, i, j, k, l, m, n, o⟩
  simp [Spacing.scale, F32.mul_fin_one, vec2_scale_fin_one, margin_scale_fin_one,
    scrollStyle_scale_fin_one]

theorem fontId_scale_fin_one (f : FontId) : f.scale (F32.fin 1) = f := by
  rcases f with ⟨s, fam⟩
  simp [FontId.scale, F32.mul_fin_one]

theorem style_scale_fin_one (st : Style) (h : st.noFloor = true) :
    st.scale (F32.fin 1) = st := by
  rcases st with ⟨ofi, ts, inter, sp, vis, anim⟩
  simp [Style.noFloor] at h
  cases ofi <;>
    simp [Style.scale, fontId_scale_fin_one, interaction_scale_fin_one,
      spacing_scale_fin_one, visuals_scale_fin_one _ h]

theorem stroke_scale_eval (w k : ℚ) (c : Color32) :
    Stroke.scale ⟨F32.fin w, c⟩ (F32.fin k) =
      if w * k < 1 then ⟨F32.fin 1, c⟩ else ⟨F32.fin (w * k), c⟩ := by
  simp only [Stroke.scale, F32.mul, F32.lt, decide_eq_true_eq]

theorem truncQ_eq (n : ℤ) (q : ℚ) (h : q = (n : ℚ)) : truncQ q = n := by
  rw [h, truncQ_intCast]

theorem truncQ_floor (n : ℤ) (q : ℚ) (h0 : 0 ≤ q) (h1 : (n : ℚ) ≤ q)
    (h2 : q < (n : ℚ) + 1) : truncQ q = n := by
  unfold truncQ
  rw [if_pos h0]
  refine Int.floor_eq_iff.mpr ⟨h1, ?_⟩
  exact h2

theorem f32_mul_ne_self (q : ℚ) (s : F32) (hq : q ≠ 0) (hs : s ≠ F32.fin 1) :
    F32.mul (F32.fin q) s ≠ F32.fin q := by
  cases s with
  | fin b =>
    simp only [F32.mul, ne_eq, F32.fin.injEq]
    intro hqb
    apply hs
    have hb : b = 1 := mul_left_cancel₀ hq (hqb.trans (mul_one q).symm)
    rw [hb]
  | nan => simp [F32.mul]
  | pinf =>
    simp only [F32.mul]
    split_ifs <;> simp
  | ninf =>
    simp only [F32.mul]
    split_ifs <;> simp

/-- C1: evaluating `Stroke::scale` at width `2.0`, factor `0.1` (the spec's
stroke-floor concrete case). The width is clamped to `1.0` as the claim
states, but the color is NOT attenuated: the source's
`self.color.gamma_multiply(self.width)` discards the returned color, so the
alpha stays `255` instead of the claimed `0.2 × 255 = 51`. -/
theorem c1_stroke_floor_color_not_attenuated :
    Stroke.scale ⟨F32.fin 2, white⟩ (F32.fin (1 / 10)) = ⟨F32.fin 1, white⟩ ∧
    (Stroke.scale ⟨F32.fin 2, white⟩ (F32.fin (1 / 10))).color.a.val = 255 ∧
    ((Stroke.scale ⟨F32.fin 2, white⟩ (F32.fin (1 / 10))).color.a.val : ℚ) ≠
      (1 / 5) * 255 := by
  have h : Stroke.scale ⟨F32.fin 2, white⟩ (F32.fin (1 / 10)) =
      ⟨F32.fin 1, white⟩ := by
    rw [stroke_scale_eval]
    norm_num
  refine ⟨h, ?_, ?_⟩ <;> rw [h] <;> norm_num [white]

/-- C2 counterexample: scaling a stroke of width `0.5` by the identity
factor `1.0` changes the width to `1.0`, because the width floor engages
even at factor `1.0` — the claim's unconditional identity law fails. -/
theorem c2_counterexample_scale_one_floors_subunit_stroke :
    Stroke.scale ⟨F32.fin (1 / 2), white⟩ (F32.fin 1) = ⟨F32.fin 1, white⟩ ∧
    Stroke.scale ⟨F32.fin (1 / 2), white⟩ (F32.fin 1) ≠
      ⟨F32.fin (1 / 2), white⟩ := by
  have h : Stroke.scale ⟨F32.fin (1 / 2), white⟩ (F32.fin 1) =
      ⟨F32.fin 1, white⟩ := by
    rw [stroke_scale_eval]
    norm_num
  refine ⟨h, ?_⟩
  rw [h]
  intro hc
  injection hc with hw hcol
  injection hw with h1
  norm_num at h1

/-- C2 (amended): scaling a `Stroke` or a `Style` by factor `1.0` leaves
every field unchanged — including the narrowing-integer `u8`/`i8` fields,
which round-trip exactly — provided every stroke width involved is at
least `1.0` (sub-unit stroke widths are clamped to `1.0` by the floor even
at factor `1.0`). -/
theorem c2_scale_one_identity :
    (∀ s : Stroke, s.noFloor = true → s.scale (F32.fin 1) = s) ∧
    (∀ st : Style, st.noFloor = true → st.scale (F32.fin 1) = st) :=
  ⟨stroke_scale_fin_one, style_scale_fin_one⟩

/-- C2 witness: the identity law applied to a concrete stroke of width
`2.0` and to the concrete floor-free `exampleStyle`. -/
theorem c2_scale_one_identity_witness :
    Stroke.scale ⟨F32.fin 2, white⟩ (F32.fin 1) = ⟨F32.fin 2, white⟩ ∧
    Style.scale exampleStyle (F32.fin 1) = exampleStyle :=
  ⟨c2_scale_one_identity.1 ⟨F32.fin 2, white⟩ (by decide),
    c2_scale_one_identity.2 exampleStyle (by decide)⟩

/-- C3 counterexample: `u8::scale` is not plain truncation toward zero for
every input — at `v = 255`, `s = 2.0` the widened product is `510.0`,
whose truncation toward zero is `510`, but the saturating `as u8` cast
returns `255`. -/
theorem c3_counterexample_saturation_not_truncation :
    (U8.scale u8max (F32.fin 2)).val = 255 ∧
    truncQ ((u8max.val : ℚ) * 2) = 510 ∧ (255 : ℤ) ≠ 510 := by
  have hq : ((u8max.val : ℚ)) * 2 = ((510 : ℤ) : ℚ) := by
    norm_num [u8max]
  have ht : truncQ ((u8max.val : ℚ) * 2) = 510 := truncQ_eq 510 _ hq
  refine ⟨?_, ht, by norm_num⟩
  simp only [U8.scale, F32.mul, asU8, ht]
  norm_num

/-- C3 (amended): for every `u8` value `v` and every finite factor `s`
whose widened product truncates into `[0, 255]`, `u8::scale` replaces `v`
with the truncation toward zero of the widened product `v × s`;
out-of-range products saturate instead. -/
theorem c3_u8_scale_truncates_in_range (v : U8) (q : ℚ)
    (h1 : 0 ≤ truncQ ((v.val : ℚ) * q))
    (h2 : truncQ ((v.val : ℚ) * q) ≤ 255) :
    (U8.scale v (F32.fin q)).val = truncQ ((v.val : ℚ) * q) := by
  simp only [U8.scale, F32.mul, asU8]
  omega

/-- C3 witness: `10 × 0.25 = 2.5` truncates to `2`, which is in range, and
`u8::scale` indeed returns it. -/
theorem c3_u8_scale_truncates_in_range_witness :
    (U8.scale u8ten (F32.fin (1 / 4))).val =
      truncQ ((u8ten.val : ℚ) * (1 / 4)) := by
  have ht : truncQ ((u8ten.val : ℚ) * (1 / 4)) = 2 :=
    truncQ_floor 2 _ (by norm_num [u8ten]) (by norm_num [u8ten])
      (by norm_num [u8ten])
  exact c3_u8_scale_truncates_in_range u8ten (1 / 4)
    (by rw [ht]; norm_num) (by rw [ht]; norm_num)

/-- C4 counterexample: three concrete refutations of "every declared
linear-dimension field changes under any factor `≠ 1.0`": a `FontId` of
size `0.0` scaled by `2.0` keeps size `0.0`; a stroke of width `1.0`
scaled by `0.7` keeps width `1.0` (the floor clamps the sub-unit product
back to one unit); and the `u8` value `200` scaled by `1.001` stays `200`
(the product `200.2` truncates back down). Each factor is `≠ 1.0`. -/
theorem c4_counterexample_unchanged_under_non_identity_factors :
    (FontId.scale ⟨F32.fin 0, FontFamily.Proportional⟩ (F32.fin 2) =
        ⟨F32.fin 0, FontFamily.Proportional⟩ ∧ F32.fin 2 ≠ F32.fin 1) ∧
    (Stroke.scale ⟨F32.fin 1, white⟩ (F32.fin (7 / 10)) =
        ⟨F32.fin 1, white⟩ ∧ F32.fin (7 / 10) ≠ F32.fin 1) ∧
    (U8.scale u8twohundred (F32.fin (1001 / 1000)) = u8twohundred ∧
      F32.fin (1001 / 1000) ≠ F32.fin 1) := by
  refine ⟨⟨?_, ?_⟩, ⟨?_, ?_⟩, ⟨?_, ?_⟩⟩
  · simp [FontId.scale, F32.mul]
  · intro h
    injection h with h1
    norm_num at h1
  · rw [stroke_scale_eval]
    norm_num
  · intro h
    injection h with h1
    norm_num at h1
  · have ht : truncQ ((u8twohundred.val : ℚ) * (1001 / 1000)) = 200 :=
      truncQ_floor 200 _ (by norm_num [u8twohundred])
        (by norm_num [u8twohundred]) (by norm_num [u8twohundred])
    apply Subtype.ext
    simp only [U8.scale, F32.mul, ht, asU8]
    norm_num [u8twohundred]
  · intro h
    injection h with h1
    norm_num at h1

/-- C4 (amended): every declared non-scalable field (a stroke's or a
shadow's color, widget and selection background fills, `FontId`'s family,
`Style`'s `animation_time`) never changes under scaling by any factor.
Every composite type's scale operation acts field-by-field: each
linear-dimension `f32` field is sent through exactly one `F32.mul`
application and each nested field through its own scaler (the per-type
action table below), and `F32.mul` moves every nonzero finite value under
every factor `≠ 1.0` — so every such field changes, except a stroke
width, which the floor clamps back to its old value `1.0` whenever the
product falls below one unit. A zero-valued `f32` field is unchanged
under every finite factor, and a narrowing-integer field can be unchanged
under a factor `≠ 1.0` when the truncated product coincides with its
value. -/
theorem c4_scale_coverage :
    (∀ (sk : Stroke) (q : ℚ) (s : F32), sk.width = F32.fin q → q ≠ 0 →
        q ≠ 1 → s ≠ F32.fin 1 → (sk.scale s).width ≠ sk.width) ∧
    (∀ (sk : Stroke) (s : F32), sk.width = F32.fin 1 →
        F32.lt (F32.mul sk.width s) (F32.fin 1) = true →
        (sk.scale s).width = sk.width) ∧
    (∀ (q : ℚ) (s : F32), q ≠ 0 → s ≠ F32.fin 1 →
        F32.mul (F32.fin q) s ≠ F32.fin q) ∧
    (∀ s : ℚ, F32.mul (F32.fin 0) (F32.fin s) = F32.fin 0) ∧
    (∀ (v s : F32), F32.scale v s = F32.mul v s) ∧
    (∀ (v : Vec2) (s : F32),
        (v.scale s).x = F32.mul v.x s ∧ (v.scale s).y = F32.mul v.y s) ∧
    (∀ (c : CornerRadius) (s : F32),
        (c.scale s).nw = c.nw.scale s ∧ (c.scale s).ne = c.ne.scale s ∧
        (c.scale s).se = c.se.scale s ∧ (c.scale s).sw = c.sw.scale s) ∧
    (∀ (m : Margin) (s : F32),
        (m.scale s).left = m.left.scale s ∧
        (m.scale s).right = m.right.scale s ∧
        (m.scale s).top = m.top.scale s ∧
        (m.scale s).bottom = m.bottom.scale s) ∧
    (∀ (sh : Shadow) (s : F32),
        (sh.scale s).offset = scaleList I8.scale sh.offset s ∧
        (sh.scale s).blur = sh.blur.scale s ∧
        (sh.scale s).spread = sh.spread.scale s) ∧
    (∀ (w : WidgetVisuals) (s : F32),
        (w.scale s).bg_stroke = w.bg_stroke.scale s ∧
        (w.scale s).corner_radius = w.corner_radius.scale s ∧
        (w.scale s).fg_stroke = w.fg_stroke.scale s ∧
        (w.scale s).expansion = F32.mul w.expansion s) ∧
    (∀ (i : Interaction) (s : F32),
        (i.scale s).resize_grab_radius_corner =
          F32.mul i.resize_grab_radius_corner s ∧
        (i.scale s).resize_grab_radius_side =
          F32.mul i.resize_grab_radius_side s) ∧
    (∀ (w : Widgets) (s : F32),
        (w.scale s).noninteractive = w.noninteractive.scale s ∧
        (w.scale s).inactive = w.inactive.scale s ∧
        (w.scale s).hovered = w.hovered.scale s ∧
        (w.scale s).active = w.active.scale s ∧
        (w.scale s).open_ = w.open_.scale s) ∧
    (∀ (v : Visuals) (s : F32),
        (v.scale s).clip_rect_margin = F32.mul v.clip_rect_margin s ∧
        (v.scale s).menu_corner_radius = v.menu_corner_radius.scale s ∧
        (v.scale s).popup_shadow = v.popup_shadow.scale s ∧
        (v.scale s).resize_corner_size = F32.mul v.resize_corner_size s ∧
        (v.scale s).selection.stroke = v.selection.stroke.scale s ∧
        (v.scale s).text_cursor = v.text_cursor.scale s ∧
        (v.scale s).widgets = v.widgets.scale s ∧
        (v.scale s).window_corner_radius = v.window_corner_radius.scale s ∧
        (v.scale s).window_shadow = v.window_shadow.scale s ∧
        (v.scale s).window_stroke = v.window_stroke.scale s) ∧
    (∀ (sc : ScrollStyle) (s : F32),
        (sc.scale s).bar_inner_margin = F32.mul sc.bar_inner_margin s ∧
        (sc.scale s).bar_outer_margin = F32.mul sc.bar_outer_margin s ∧
        (sc.scale s).bar_width = F32.mul sc.bar_width s ∧
        (sc.scale s).floating_allocated_width =
          F32.mul sc.floating_allocated_width s ∧
        (sc.scale s).floating_width = F32.mul sc.floating_width s ∧
        (sc.scale s).handle_min_length = F32.mul sc.handle_min_length s) ∧
    (∀ (sp : Spacing) (s : F32),
        (sp.scale s).button_padding = sp.button_padding.scale s ∧
        (sp.scale s).combo_height = F32.mul sp.combo_height s ∧
        (sp.scale s).combo_width = F32.mul sp.combo_width s ∧
        (sp.scale s).icon_spacing = F32.mul sp.icon_spacing s ∧
        (sp.scale s).icon_width = F32.mul sp.icon_width s ∧
        (sp.scale s).icon_width_inner = F32.mul sp.icon_width_inner s ∧
        (sp.scale s).indent = F32.mul sp.indent s ∧
        (sp.scale s).interact_size = sp.interact_size.scale s ∧
        (sp.scale s).item_spacing = sp.item_spacing.scale s ∧
        (sp.scale s).menu_margin = sp.menu_margin.scale s ∧
        (sp.scale s).scroll = sp.scroll.scale s ∧
        (sp.scale s).slider_width = F32.mul sp.slider_width s ∧
        (sp.scale s).text_edit_width = F32.mul sp.text_edit_width s ∧
        (sp.scale s).tooltip_width = F32.mul sp.tooltip_width s ∧
        (sp.scale s).window_margin = sp.window_margin.scale s) ∧
    (∀ (f : FontId) (s : F32), (f.scale s).size = F32.mul f.size s) ∧
    (∀ (fr : Frame) (s : F32),
        (fr.scale s).inner_margin = fr.inner_margin.scale s ∧
        (fr.scale s).outer_margin = fr.outer_margin.scale s ∧
        (fr.scale s).corner_radius = fr.corner_radius.scale s ∧
        (fr.scale s).shadow = fr.shadow.scale s ∧
        (fr.scale s).stroke = fr.stroke.scale s) ∧
    (∀ (sk : Stroke) (s : F32), (sk.scale s).color = sk.color) ∧
    (∀ (sh : Shadow) (s : F32), (sh.scale s).color = sh.color) ∧
    (∀ (f : FontId) (s : F32), (f.scale s).family = f.family) ∧
    (∀ (st : Style) (s : F32),
        (st.scale s).animation_time = st.animation_time) ∧
    (∀ (w : WidgetVisuals) (s : F32), (w.scale s).bg_fill = w.bg_fill) ∧
    (∀ (v : Visuals) (s : F32),
        (v.scale s).selection.bg_fill = v.selection.bg_fill) := by
  refine ⟨?_, ?_, f32_mul_ne_self, ?_,
    fun v s => rfl,
    fun v s => ⟨rfl, rfl⟩,
    fun c s => ⟨rfl, rfl, rfl, rfl⟩,
    fun m s => ⟨rfl, rfl, rfl, rfl⟩,
    fun sh s => ⟨rfl, rfl, rfl⟩,
    fun w s => ⟨rfl, rfl, rfl, rfl⟩,
    fun i s => ⟨rfl, rfl⟩,
    fun w s => ⟨rfl, rfl, rfl, rfl, rfl⟩,
    fun v s => ⟨rfl, rfl, rfl, rfl, rfl, rfl, rfl, rfl, rfl, rfl⟩,
    fun sc s => ⟨rfl, rfl, rfl, rfl, rfl, rfl⟩,
    fun sp s =>
      ⟨rfl, rfl, rfl, rfl, rfl, rfl, rfl, rfl, rfl, rfl, rfl, rfl, rfl,
        rfl, rfl⟩,
    fun f s => rfl,
    fun fr s => ⟨rfl, rfl, rfl, rfl, rfl⟩,
    ?_,
    fun sh s => rfl,
    fun f s => rfl,
    fun st s => rfl,
    fun w s => rfl,
    fun v s => rfl⟩
  · intro sk q s hw hq0 hq1 hs
    unfold Stroke.scale
    rw [hw]
    split_ifs with hc
    · show F32.fin 1 ≠ F32.fin q
      intro h
      injection h with h1
      exact hq1 h1.symm
    · show F32.mul (F32.fin q) s ≠ F32.fin q
      exact f32_mul_ne_self q s hq0 hs
  · intro sk s hw hc
    unfold Stroke.scale
    rw [if_pos hc, hw]
  · intro s
    simp [F32.mul]
  · intro sk s
    unfold Stroke.scale
    split_ifs <;> rfl

/-- C4 witness: a stroke of width `2.0` changes its width under factor
`3.0`; a stroke of width `1.0` is clamped back to its old width under
factor `0.5` (the stated floor exception); and the general
nonzero-finite-change law at `14 × 2`. -/
theorem c4_scale_coverage_witness :
    (Stroke.scale ⟨F32.fin 2, white⟩ (F32.fin 3)).width ≠ F32.fin 2 ∧
    (Stroke.scale ⟨F32.fin 1, white⟩ (F32.fin (1 / 2))).width = F32.fin 1 ∧
    F32.mul (F32.fin 14) (F32.fin 2) ≠ F32.fin 14 := by
  have hm : F32.mul (F32.fin 1) (F32.fin (1 / 2)) = F32.fin (1 / 2) := by
    simp only [F32.mul, F32.fin.injEq]
    norm_num
  have hlt : F32.lt (F32.mul (F32.fin 1) (F32.fin (1 / 2))) (F32.fin 1) =
      true := by
    rw [hm]
    simp only [F32.lt, decide_eq_true_eq]
    norm_num
  refine ⟨?_, ?_, ?_⟩
  · exact c4_scale_coverage.1 ⟨F32.fin 2, white⟩ 2 (F32.fin 3) rfl
      (by norm_num) (by norm_num)
      (by intro h; injection h with h1; norm_num at h1)
  · exact c4_scale_coverage.2.1 ⟨F32.fin 1, white⟩ (F32.fin (1 / 2)) rfl hlt
  · exact c4_scale_coverage.2.2.1 14 (F32.fin 2) (by norm_num)
      (by intro h; injection h with h1; norm_num at h1)

/-- C5: scaling a stroke of width `2.0` by `0.6` yields width `1.2` with
no clamping and the color completely unchanged; a factor that lands
exactly on width `1.0` (here `0.5`) also engages no attenuation and leaves
the color unchanged. -/
theorem c5_stroke_non_floor_case :
    (∀ c : Color32,
        Stroke.scale ⟨F32.fin 2, c⟩ (F32.fin (6 / 10)) =
          ⟨F32.fin (6 / 5), c⟩) ∧
    (∀ c : Color32,
        Stroke.scale ⟨F32.fin 2, c⟩ (F32.fin (1 / 2)) = ⟨F32.fin 1, c⟩) := by
  constructor <;> intro c <;> rw [stroke_scale_eval] <;> norm_num

/-- C6: scaling a `Style` whose text-style mapping is
`[Body ↦ 14.0, Heading ↦ 20.0]` by factor `2.0` yields the same two keys
with sizes `28.0` and `40.0`; in general the mapping scaler only scales
values, preserving keys and arity for every style and every factor. -/
theorem c6_text_styles_mapping :
    (∀ (st : Style) (fam1 fam2 : FontFamily),
        st.text_styles =
          [(TextStyle.Body, ⟨F32.fin 14, fam1⟩),
            (TextStyle.Heading, ⟨F32.fin 20, fam2⟩)] →
        (st.scale (F32.fin 2)).text_styles =
          [(TextStyle.Body, ⟨F32.fin 28, fam1⟩),
            (TextStyle.Heading, ⟨F32.fin 40, fam2⟩)]) ∧
    (∀ (st : Style) (k : F32),
        (st.scale k).text_styles.map Prod.fst =
          st.text_styles.map Prod.fst ∧
        (st.scale k).text_styles.length = st.text_styles.length) := by
  constructor
  · intro st fam1 fam2 h
    simp only [Style.scale, h, List.map_cons, List.map_nil]
    norm_num [FontId.scale, F32.mul]
  · intro st k
    constructor <;> simp [Style.scale]

/-- C6 witness: the concrete mapping case evaluated on `exampleStyle`. -/
theorem c6_text_styles_mapping_witness :
    (exampleStyle.scale (F32.fin 2)).text_styles =
      [(TextStyle.Body, ⟨F32.fin 28, FontFamily.Proportional⟩),
        (TextStyle.Heading, ⟨F32.fin 40, FontFamily.Proportional⟩)] :=
  c6_text_styles_mapping.1 exampleStyle FontFamily.Proportional
    FontFamily.Proportional rfl

/-- C7: scaling an absent optional value is a no-op — the generic
`Option` scaler maps `None` to `None` for every inner scaler and every
factor, and a `Style` with no font override still has none after scaling. -/
theorem c7_option_scale_none :
    (∀ (α : Type) (g : α → F32 → α) (k : F32),
        Option.scale g (none : Option α) k = none) ∧
    (∀ (st : Style) (k : F32), st.override_font_id = none →
        (st.scale k).override_font_id = none) := by
  constructor
  · intro α g k
    rfl
  · intro st k h
    simp [Style.scale, h]

/-- C7 witness: `exampleStyle` has no font override, and scaling it even by
the degenerate factor NaN leaves the override absent. -/
theorem c7_option_scale_none_witness :
    (exampleStyle.scale F32.nan).override_font_id = none :=
  c7_option_scale_none.2 exampleStyle F32.nan rfl

/-- C8: every scale operation is total — for every input value and every
factor (NaN, infinities, zero and negative factors included) the operation
produces a result, and `scaled` is defined for every input as well;
degenerate factors propagate through the arithmetic (`q × NaN = NaN`,
`q × 0 = 0`) instead of being rejected. -/
theorem c8_scale_total :
    (∀ (st : Style) (k : F32), ∃ r : Style, st.scale k = r) ∧
    (∀ (st : Style) (k : F32), st.scaled k = st.scale k) ∧
    (∀ (q : ℚ), F32.mul (F32.fin q) F32.nan = F32.nan) ∧
    (∀ (q : ℚ), F32.mul (F32.fin q) (F32.fin 0) = F32.fin 0) ∧
    (∀ (v : U8) (k : F32), ∃ r : U8, v.scale k = r) ∧
    (∀ (fr : Frame) (k : F32), ∃ r : Frame, fr.scale k = r) := by
  refine ⟨fun st k => ⟨_, rfl⟩, fun st k => rfl, fun q => rfl, ?_,
    fun v k => ⟨_, rfl⟩, fun fr k => ⟨_, rfl⟩⟩
  intro q
  simp [F32.mul]

/-- C9: a stroke of width `0.0` scaled by any finite factor gets width
exactly `1.0`: `0.0 × s = 0.0 < 1.0`, so the floor branch engages and the
previously invisible stroke acquires a renderable one-unit width. -/
theorem c9_zero_width_stroke_floors :
    ∀ (c : Color32) (q : ℚ),
      Stroke.scale ⟨F32.fin 0, c⟩ (F32.fin q) = ⟨F32.fin 1, c⟩ := by
  intro c q
  rw [stroke_scale_eval]
  norm_num

/-- C10: `u8::scale` always lands in `[0, 255]`; a NaN product gives `0`,
a negative product gives `0`, a product above `255` gives `255`, and
infinite products saturate to the corresponding endpoint. -/
theorem c10_u8_scale_saturates (v : U8) (s : F32) :
    (0 ≤ (U8.scale v s).val ∧ (U8.scale v s).val ≤ 255) ∧
    (F32.mul (F32.fin (v.val : ℚ)) s = F32.nan → (U8.scale v s).val = 0) ∧
    (∀ q : ℚ, F32.mul (F32.fin (v.val : ℚ)) s = F32.fin q → q < 0 →
        (U8.scale v s).val = 0) ∧
    (∀ q : ℚ, F32.mul (F32.fin (v.val : ℚ)) s = F32.fin q → 255 < q →
        (U8.scale v s).val = 255) ∧
    (F32.mul (F32.fin (v.val : ℚ)) s = F32.pinf → (U8.scale v s).val = 255) ∧
    (F32.mul (F32.fin (v.val : ℚ)) s = F32.ninf → (U8.scale v s).val = 0) := by
  refine ⟨(U8.scale v s).property, ?_, ?_, ?_, ?_, ?_⟩
  · intro h
    simp [U8.scale, h, asU8]
  · intro q h hq
    simp only [U8.scale, h, asU8]
    have h1 : truncQ q ≤ 0 := by
      unfold truncQ
      split
      · linarith
      · exact Int.ceil_le.mpr (by push_cast; linarith)
    omega
  · intro q h hq
    simp only [U8.scale, h, asU8]
    have h1 : 255 ≤ truncQ q := by
      unfold truncQ
      split
      · exact Int.le_floor.mpr (by push_cast; linarith)
      · linarith
    omega
  · intro h
    simp [U8.scale, h, asU8]
  · intro h
    simp [U8.scale, h, asU8]

/-- C10 witness: `100 × (-2) = -200` saturates to `0`, `100 × 4 = 400`
saturates to `255`, and a NaN factor gives `0`. -/
theorem c10_u8_scale_saturates_witness :
    (U8.scale u8hundred (F32.fin (-2))).val = 0 ∧
    (U8.scale u8hundred (F32.fin 4)).val = 255 ∧
    (U8.scale u8hundred F32.nan).val = 0 := by
  have hneg : F32.mul (F32.fin ((u8hundred.val : ℚ))) (F32.fin (-2)) =
      F32.fin (-200) := by
    simp only [F32.mul, F32.fin.injEq]
    norm_num [u8hundred]
  have hbig : F32.mul (F32.fin ((u8hundred.val : ℚ))) (F32.fin 4) =
      F32.fin 400 := by
    simp only [F32.mul, F32.fin.injEq]
    norm_num [u8hundred]
  exact ⟨(c10_u8_scale_saturates u8hundred (F32.fin (-2))).2.2.1 (-200) hneg
      (by norm_num),
    (c10_u8_scale_saturates u8hundred (F32.fin 4)).2.2.2.1 400 hbig
      (by norm_num),
    (c10_u8_scale_saturates u8hundred F32.nan).2.1 rfl⟩
